import Mathlib

/-!
Shallow embedding of
`src/vs/workbench/contrib/notebook/browser/contrib/cellStatusBar/executionStatusBarItemController.ts`:
the notebook cell status bar controllers (execution-state indicator, execution-timer
indicator, the visibility-scoped controller, and the shared duration-formatting helper).

Modelling conventions:
* Timestamps and durations are natural numbers of milliseconds (`Date.now()` values are
  non-negative integers at the granularity the code works with).  Where the source
  subtracts timestamps inside a signed context (`MIN_SPINNER_TIME - (Date.now() - t)`),
  the embedding computes in `Int`.
* The stateful classes become explicit state records; every mutation of a field and
  every externally visible effect (pushing an item list, scheduling a timer, cancelling
  a timer, the 100ms self-reschedule) is returned as part of a result record.
* The status item store (`INotebookViewModel.deltaCellStatusBarItems`) is modelled as a
  function from cell handle to the attached item list; a push replaces the list for the
  one affected handle.
* External leaf helpers that live outside the analyzed file (icon identifier constants,
  `ThemeIcon.modify`, locale time formatting, URI-component encoding) are modelled as
  explicitly marked definitions; none of the claims depend on their exact output, only
  on how the analyzed file combines them.
-/

/-- `NotebookCellExecutionState` from notebookCommon: the non-idle execution states.
"No state" is represented by `Option.none` at use sites, matching the source's
`runState?.state` being `undefined`. -/
inductive NotebookCellExecutionState where
  | Unconfirmed
  | Pending
  | Executing
deriving DecidableEq, Repr

/-- The part of `INotebookCellExecution` the controllers read: the state enum and the
`didPause` flag. -/
structure INotebookCellExecution where
  state : NotebookCellExecutionState
  didPause : Bool
deriving DecidableEq, Repr

/-- The part of `NotebookCellInternalMetadata` the controllers read.  `renderDuration`
is a finite map from renderer id to milliseconds, modelled as an association list (the
source iterates its keys with `for ... in`). -/
structure NotebookCellInternalMetadata where
  lastRunSuccess : Option Bool
  runStartTime : Option Nat
  runStartTimeAdjustment : Option Nat
  runEndTime : Option Nat
  renderDuration : List (String × Nat)
deriving DecidableEq, Repr

/-- `CellStatusbarAlignment` from notebookCommon. -/
inductive CellStatusbarAlignment where
  | Left
  | Right
deriving DecidableEq, Repr

/-- A status bar item tooltip: either a plain string or a trusted-markdown value
(`IMarkdownString` in the source). -/
inductive CellStatusBarTooltip where
  | str (s : String)
  | markdown (value : String) (isTrusted : Bool)
deriving DecidableEq, Repr

/-- `INotebookCellStatusBarItem`: the declarative status item record the indicators
produce. -/
structure INotebookCellStatusBarItem where
  text : String
  color : Option String
  tooltip : Option CellStatusBarTooltip
  alignment : CellStatusbarAlignment
  priority : Nat
deriving DecidableEq, Repr

/-- JavaScript `Number.MAX_SAFE_INTEGER` = 2^53 - 1, the priority sentinel used by the
execution-state items. -/
def maxSafeInteger : Nat := 9007199254740991

/-- `formatCellDuration(duration, showMilliseconds = true)`: the shared duration
formatting helper (lines 24-38 of the source).  `Math.floor` on non-negative integer
millisecond counts is natural division, and the JavaScript `%` is `Nat.mod`. -/
def formatCellDuration (duration : Nat) (showMilliseconds : Bool) : String :=
  if showMilliseconds = true ∧ duration < 1000 then
    toString duration ++ "ms"
  else
    let minutes := duration / 1000 / 60
    let seconds := duration / 1000 % 60
    let tenths := duration % 1000 / 100
    if minutes > 0 then
      toString minutes ++ "m " ++ toString seconds ++ "." ++ toString tenths ++ "s"
    else
      toString seconds ++ "." ++ toString tenths ++ "s"

/-- C4: the shared duration-formatting helper renders durations under 1000ms (with
milliseconds enabled) as "(n)ms"; otherwise it renders minutes, seconds and a truncated
tenths digit, omitting the minutes segment when the minutes value
(`duration / 60000`, truncated) is zero; the seconds value is `duration / 1000 % 60` and
the tenths digit is `duration % 1000 / 100`, both truncated rather than rounded.  In
particular `format 50 = "50ms"`, `format 1500 (showMs := false) = "1.5s"` and
`format 65250 = "1m 5.2s"`. -/
theorem formatCellDuration_spec :
    (∀ d : Nat, d < 1000 → formatCellDuration d true = toString d ++ "ms") ∧
    (∀ (d : Nat) (showMs : Bool), (showMs = false ∨ 1000 ≤ d) →
      formatCellDuration d showMs =
        if d / 60000 > 0 then
          toString (d / 60000) ++ "m " ++ toString (d / 1000 % 60) ++ "." ++
            toString (d % 1000 / 100) ++ "s"
        else
          toString (d / 1000 % 60) ++ "." ++ toString (d % 1000 / 100) ++ "s") ∧
    formatCellDuration 50 true = "50ms" ∧
    formatCellDuration 1500 false = "1.5s" ∧
    formatCellDuration 65250 true = "1m 5.2s" := by
  refine ⟨?_, ?_, by decide, by decide, by decide⟩
  · intro d hd
    simp [formatCellDuration, hd]
  · intro d showMs h
    have hmin : d / 60000 = d / 1000 / 60 := by
      rw [Nat.div_div_eq_div_mul]
    rcases h with h | h
    · subst h
      simp [formatCellDuration, hmin]
    · have : ¬ (showMs = true ∧ d < 1000) := by
        rintro ⟨-, hlt⟩
        omega
      simp only [formatCellDuration, if_neg this, hmin]

/-- Witness for C4 at a concrete input. -/
theorem formatCellDuration_spec_witness :
    formatCellDuration 500 true = toString 500 ++ "ms" :=
  formatCellDuration_spec.1 500 (by decide)

/-- A theme icon, identified by its id string (`ThemeIcon` from base/common/themables). -/
structure ThemeIcon where
  id : String
deriving DecidableEq, Repr

/-- Modelled from the spec: the icon constants live in notebookIcons outside the
analyzed core; only their identities matter here (four distinct registered icons). -/
def successStateIcon : ThemeIcon := ⟨"notebook-state-success"⟩

/-- Modelled from the spec: see `successStateIcon`. -/
def errorStateIcon : ThemeIcon := ⟨"notebook-state-error"⟩

/-- Modelled from the spec: see `successStateIcon`. -/
def pendingStateIcon : ThemeIcon := ⟨"notebook-state-pending"⟩

/-- Modelled from the spec: see `successStateIcon`. -/
def executingStateIcon : ThemeIcon := ⟨"notebook-state-executing"⟩

/-- Modelled from the spec: `ThemeIcon.modify` (base/common/themables) is outside the
analyzed core; the spec only says the Executing item uses an animated ("spin") variant
of the executing icon, which the themable layer encodes by attaching the modifier to
the icon id. -/
def ThemeIcon.modify (icon : ThemeIcon) (modifier : String) : ThemeIcon :=
  ⟨icon.id ++ "~" ++ modifier⟩

/-- `ExecutionStateCellStatusBarItem._getItemForState` (lines 161-200): maps the run
state and the cell's internal metadata to the item list.  `localize` calls are modelled
by their default (English) strings, `themeColorFromId` by the color id name. -/
def ExecutionStateCellStatusBarItem.getItemForState
    (runState : Option INotebookCellExecution)
    (internalMetadata : NotebookCellInternalMetadata) : List INotebookCellStatusBarItem :=
  let state := runState.map (·.state)
  if state = none ∧ internalMetadata.lastRunSuccess = some true then
    [{ text := "$(" ++ successStateIcon.id ++ ")",
       color := some "cellStatusIconSuccess",
       tooltip := some (.str "Success"),
       alignment := CellStatusbarAlignment.Left,
       priority := maxSafeInteger }]
  else if state = none ∧ internalMetadata.lastRunSuccess = some false then
    [{ text := "$(" ++ errorStateIcon.id ++ ")",
       color := some "cellStatusIconError",
       tooltip := some (.str "Failed"),
       alignment := CellStatusbarAlignment.Left,
       priority := maxSafeInteger }]
  else if state = some NotebookCellExecutionState.Pending ∨
      state = some NotebookCellExecutionState.Unconfirmed then
    [{ text := "$(" ++ pendingStateIcon.id ++ ")",
       color := none,
       tooltip := some (.str "Pending"),
       alignment := CellStatusbarAlignment.Left,
       priority := maxSafeInteger }]
  else if state = some NotebookCellExecutionState.Executing then
    let icon := if (match runState with | some r => r.didPause | none => false) then
        executingStateIcon
      else
        executingStateIcon.modify "spin"
    [{ text := "$(" ++ icon.id ++ ")",
       color := none,
       tooltip := some (.str "Executing"),
       alignment := CellStatusbarAlignment.Left,
       priority := maxSafeInteger }]
  else
    []

/-- C3: the execution-state indicator's state-to-item mapping is exactly: no run state
with `lastRunSuccess = true` gives one success-icon item; no run state with
`lastRunSuccess = false` gives one error-icon item; state Pending or Unconfirmed gives
one pending-icon item; state Executing gives one executing-icon item whose icon is the
static executing icon when `didPause` is true and the animated "spin" variant
otherwise; no run state with `lastRunSuccess` unset gives the empty list.  Every
produced item has priority `maxSafeInteger` and left alignment. -/
theorem getItemForState_spec :
    (∀ meta : NotebookCellInternalMetadata,
      (meta.lastRunSuccess = some true →
        ExecutionStateCellStatusBarItem.getItemForState none meta =
          [{ text := "$(" ++ successStateIcon.id ++ ")",
             color := some "cellStatusIconSuccess",
             tooltip := some (.str "Success"),
             alignment := CellStatusbarAlignment.Left,
             priority := maxSafeInteger }]) ∧
      (meta.lastRunSuccess = some false →
        ExecutionStateCellStatusBarItem.getItemForState none meta =
          [{ text := "$(" ++ errorStateIcon.id ++ ")",
             color := some "cellStatusIconError",
             tooltip := some (.str "Failed"),
             alignment := CellStatusbarAlignment.Left,
             priority := maxSafeInteger }]) ∧
      (meta.lastRunSuccess = none →
        ExecutionStateCellStatusBarItem.getItemForState none meta = [])) ∧
    (∀ (meta : NotebookCellInternalMetadata) (r : INotebookCellExecution),
      ((r.state = NotebookCellExecutionState.Pending ∨
        r.state = NotebookCellExecutionState.Unconfirmed) →
        ExecutionStateCellStatusBarItem.getItemForState (some r) meta =
          [{ text := "$(" ++ pendingStateIcon.id ++ ")",
             color := none,
             tooltip := some (.str "Pending"),
             alignment := CellStatusbarAlignment.Left,
             priority := maxSafeInteger }]) ∧
      (r.state = NotebookCellExecutionState.Executing →
        ExecutionStateCellStatusBarItem.getItemForState (some r) meta =
          [{ text := "$(" ++ (if r.didPause then executingStateIcon else
               executingStateIcon.modify "spin").id ++ ")",
             color := none,
             tooltip := some (.str "Executing"),
             alignment := CellStatusbarAlignment.Left,
             priority := maxSafeInteger }])) ∧
    (∀ (runState : Option INotebookCellExecution) (meta : NotebookCellInternalMetadata)
        (item : INotebookCellStatusBarItem),
      item ∈ ExecutionStateCellStatusBarItem.getItemForState runState meta →
        item.priority = maxSafeInteger ∧ item.alignment = CellStatusbarAlignment.Left) := by
  refine ⟨fun meta => ⟨?_, ?_, ?_⟩, fun meta r => ⟨?_, ?_⟩, ?_⟩
  · intro h
    simp [ExecutionStateCellStatusBarItem.getItemForState, h]
  · intro h
    simp [ExecutionStateCellStatusBarItem.getItemForState, h]
  · intro h
    simp [ExecutionStateCellStatusBarItem.getItemForState, h]
  · intro h
    rcases h with h | h <;>
      simp [ExecutionStateCellStatusBarItem.getItemForState, h]
  · intro h
    cases r with
    | mk state didPause =>
      cases didPause <;> simp_all [ExecutionStateCellStatusBarItem.getItemForState]
  · intro runState meta item hmem
    simp only [ExecutionStateCellStatusBarItem.getItemForState] at hmem
    split_ifs at hmem <;> simp_all

/-- Witness for C3: a cell with no run state and a failed last run yields the single
error-icon item. -/
theorem getItemForState_spec_witness :
    ExecutionStateCellStatusBarItem.getItemForState none
        ⟨some false, none, none, none, []⟩ =
      [{ text := "$(" ++ errorStateIcon.id ++ ")",
         color := some "cellStatusIconError",
         tooltip := some (.str "Failed"),
         alignment := CellStatusbarAlignment.Left,
         priority := maxSafeInteger }] :=
  (getItemForState_spec.1 ⟨some false, none, none, none, []⟩).2.1 rfl

/-- `ExecutionStateCellStatusBarItem.MIN_SPINNER_TIME` (line 101). -/
def ExecutionStateCellStatusBarItem.MIN_SPINNER_TIME : Nat := 500

/-- The mutable per-session state of `ExecutionStateCellStatusBarItem`:
`_showedExecutingStateTime` and whether `_clearExecutingStateTimer` currently holds a
pending timeout. -/
structure ExecIndicatorState where
  showedExecutingStateTime : Option Nat
  clearTimerPending : Bool
deriving DecidableEq, Repr

/-- Result of one run of `_getItemsForCell`: the returned value (`none` models the
source returning `undefined`, i.e. "no change"), the session state after the run, and
the delay of a clear timer newly scheduled during the run (`none` when no timer was
scheduled). -/
structure ExecGetItemsResult where
  items : Option (List INotebookCellStatusBarItem)
  state : ExecIndicatorState
  scheduledClearDelay : Option Int
deriving DecidableEq, Repr

/-- `ExecutionStateCellStatusBarItem._getItemsForCell` (lines 134-159), with the
implicit inputs (`Date.now()`, the execution-state lookup, the cell metadata, the
session fields) made explicit.  The signed subtraction
`MIN_SPINNER_TIME - (Date.now() - this._showedExecutingStateTime)` is computed in
`Int` exactly as in the source. -/
def ExecutionStateCellStatusBarItem.getItemsForCell (now : Nat)
    (runState : Option INotebookCellExecution)
    (internalMetadata : NotebookCellInternalMetadata)
    (st : ExecIndicatorState) : ExecGetItemsResult :=
  if runState.map (·.state) = some NotebookCellExecutionState.Executing ∧
      st.showedExecutingStateTime = none then
    let st1 : ExecIndicatorState := { st with showedExecutingStateTime := some now }
    { items := some (ExecutionStateCellStatusBarItem.getItemForState runState internalMetadata),
      state := st1,
      scheduledClearDelay := none }
  else if runState.map (·.state) ≠ some NotebookCellExecutionState.Executing ∧
      st.showedExecutingStateTime ≠ none then
    let showed := st.showedExecutingStateTime.getD 0
    let timeUntilMin : Int :=
      (ExecutionStateCellStatusBarItem.MIN_SPINNER_TIME : Int) - ((now : Int) - (showed : Int))
    if timeUntilMin > 0 then
      if st.clearTimerPending = false then
        { items := none,
          state := { st with clearTimerPending := true },
          scheduledClearDelay := some timeUntilMin }
      else
        { items := none, state := st, scheduledClearDelay := none }
    else
      let st1 : ExecIndicatorState := { st with showedExecutingStateTime := none }
      { items := some (ExecutionStateCellStatusBarItem.getItemForState runState internalMetadata),
        state := st1,
        scheduledClearDelay := none }
  else
    { items := some (ExecutionStateCellStatusBarItem.getItemForState runState internalMetadata),
      state := st,
      scheduledClearDelay := none }

/-- The callback of the clear timer scheduled by `_getItemsForCell` (lines 144-148): it
clears `_showedExecutingStateTime`, clears the timer slot, and then re-triggers
`_update` (modelled at call sites by running `getItemsForCell` on the returned state). -/
def ExecutionStateCellStatusBarItem.clearExecTimerCallback
    (_st : ExecIndicatorState) : ExecIndicatorState :=
  { showedExecutingStateTime := none, clearTimerPending := false }

/-- The status item store: cell handle to currently attached item list.
`INotebookViewModel.deltaCellStatusBarItems` with a single `{handle, items}` entry
replaces the attached list of that one cell. -/
def deltaCellStatusBarItems (store : Nat → List INotebookCellStatusBarItem)
    (handle : Nat) (items : List INotebookCellStatusBarItem) :
    Nat → List INotebookCellStatusBarItem :=
  fun h => if h = handle then items else store h

/-- `ExecutionStateCellStatusBarItem._update` (lines 124-129): run `_getItemsForCell`
and push the result to the store only when it is an array (`none` = leave the store
unchanged). -/
def ExecutionStateCellStatusBarItem.update (now : Nat)
    (runState : Option INotebookCellExecution)
    (internalMetadata : NotebookCellInternalMetadata)
    (st : ExecIndicatorState) (handle : Nat)
    (store : Nat → List INotebookCellStatusBarItem) :
    ExecGetItemsResult × (Nat → List INotebookCellStatusBarItem) :=
  let r := ExecutionStateCellStatusBarItem.getItemsForCell now runState internalMetadata st
  match r.items with
  | some items => (r, deltaCellStatusBarItems store handle items)
  | none => (r, store)

/-- C1: when recomputation runs with the run state not Executing while a display-start
timestamp `t0` is recorded: if fewer than 500ms (`MIN_SPINNER_TIME`) have elapsed, the
call returns "no change" (no push; the previously attached spinner item stays), and it
schedules exactly one clear timer for the remaining `500 - (now - t0)` ms unless one is
already pending; if 500ms or more have elapsed, the timestamp is cleared and the
non-executing item set is returned immediately with no scheduled delay.  The scheduled
timer callback clears the timestamp and the timer slot.  Concrete run: a spinner shown
at t=0 whose execution ends at t=100 stays attached through recomputations at t=100 and
t=300 (with exactly one timer, scheduled at t=100 for 400ms), and the timer firing at
t=500 replaces it exactly once by the non-executing item set. -/
theorem minSpinnerTime_spec :
    (∀ (now : Nat) (runState : Option INotebookCellExecution)
        (meta : NotebookCellInternalMetadata) (pending : Bool) (t0 : Nat),
      runState.map (·.state) ≠ some NotebookCellExecutionState.Executing →
      (((now : Int) - (t0 : Int) < 500) →
        ExecutionStateCellStatusBarItem.getItemsForCell now runState meta ⟨some t0, pending⟩ =
          { items := none,
            state := ⟨some t0, true⟩,
            scheduledClearDelay :=
              if pending then none else some (500 - ((now : Int) - (t0 : Int))) }) ∧
      ((500 : Int) ≤ (now : Int) - (t0 : Int) →
        ExecutionStateCellStatusBarItem.getItemsForCell now runState meta ⟨some t0, pending⟩ =
          { items := some (ExecutionStateCellStatusBarItem.getItemForState runState meta),
            state := ⟨none, pending⟩,
            scheduledClearDelay := none })) ∧
    (∀ st : ExecIndicatorState,
      ExecutionStateCellStatusBarItem.clearExecTimerCallback st = ⟨none, false⟩) ∧
    (ExecutionStateCellStatusBarItem.getItemsForCell 0
        (some ⟨NotebookCellExecutionState.Executing, false⟩)
        ⟨some true, some 0, some 0, some 300, []⟩ ⟨none, false⟩ =
      { items := some (ExecutionStateCellStatusBarItem.getItemForState
          (some ⟨NotebookCellExecutionState.Executing, false⟩)
          ⟨some true, some 0, some 0, some 300, []⟩),
        state := ⟨some 0, false⟩,
        scheduledClearDelay := none }) ∧
    (ExecutionStateCellStatusBarItem.getItemsForCell 100 none
        ⟨some true, some 0, some 0, some 300, []⟩ ⟨some 0, false⟩ =
      { items := none, state := ⟨some 0, true⟩, scheduledClearDelay := some 400 }) ∧
    (ExecutionStateCellStatusBarItem.getItemsForCell 300 none
        ⟨some true, some 0, some 0, some 300, []⟩ ⟨some 0, true⟩ =
      { items := none, state := ⟨some 0, true⟩, scheduledClearDelay := none }) ∧
    (ExecutionStateCellStatusBarItem.getItemsForCell 500 none
        ⟨some true, some 0, some 0, some 300, []⟩
        (ExecutionStateCellStatusBarItem.clearExecTimerCallback ⟨some 0, true⟩) =
      { items := some (ExecutionStateCellStatusBarItem.getItemForState none
          ⟨some true, some 0, some 0, some 300, []⟩),
        state := ⟨none, false⟩,
        scheduledClearDelay := none }) := by
  refine ⟨?_, fun st => rfl, by decide, by decide, by decide, by decide⟩
  intro now runState meta pending t0 hne
  have h1 : ¬(runState.map (·.state) = some NotebookCellExecutionState.Executing ∧
      (⟨some t0, pending⟩ : ExecIndicatorState).showedExecutingStateTime = none) := by
    rintro ⟨h, -⟩
    exact hne h
  have h2 : runState.map (·.state) ≠ some NotebookCellExecutionState.Executing ∧
      (⟨some t0, pending⟩ : ExecIndicatorState).showedExecutingStateTime ≠ none :=
    ⟨hne, by simp⟩
  constructor
  · intro hlt
    unfold ExecutionStateCellStatusBarItem.getItemsForCell
    rw [if_neg h1, if_pos h2]
    dsimp only [ExecutionStateCellStatusBarItem.MIN_SPINNER_TIME, Option.getD_some]
    rw [if_pos (by omega)]
    cases pending <;> simp
  · intro hge
    unfold ExecutionStateCellStatusBarItem.getItemsForCell
    rw [if_neg h1, if_pos h2]
    dsimp only [ExecutionStateCellStatusBarItem.MIN_SPINNER_TIME, Option.getD_some]
    rw [if_neg (by omega)]

/-- Witness for C1: at t=700 with the timestamp recorded at t=100 and no timer pending,
600ms have elapsed, so the timestamp is cleared and the non-executing item set applies
immediately with no scheduled delay. -/
theorem minSpinnerTime_spec_witness :
    ExecutionStateCellStatusBarItem.getItemsForCell 700 none
        ⟨some true, none, none, none, []⟩ ⟨some 100, false⟩ =
      { items := some (ExecutionStateCellStatusBarItem.getItemForState none
          ⟨some true, none, none, none, []⟩),
        state := ⟨none, false⟩,
        scheduledClearDelay := none } :=
  ((minSpinnerTime_spec.1 700 none ⟨some true, none, none, none, []⟩ false 100
    (by decide)).2 (by decide))

/-- `UPDATE_TIMER_GRACE_PERIOD` (line 221). -/
def UPDATE_TIMER_GRACE_PERIOD : Nat := 200

/-- `TimerCellStatusBarItem.UPDATE_INTERVAL` (line 224): the 100ms self-reschedule
interval of the timer indicator. -/
def TimerCellStatusBarItem.UPDATE_INTERVAL : Nat := 100

/-- `INotebookRendererInfo` as the timer indicator reads it: `displayName` and the
extension identifier value. -/
structure RendererInfo where
  displayName : String
  extensionId : String
deriving DecidableEq, Repr

/-- The `runtimeInformation` argument of `_getTimeItem`. -/
structure RuntimeInformation where
  renderDuration : List (String × Nat)
  executionDuration : Nat
  timerDuration : Nat
deriving DecidableEq, Repr

/-- Modelled from the spec: `encodeURIComponent(JSON.stringify(...))` (line 314) uses
platform encoding primitives outside the analyzed core.  The spec treats the link
payload as opaque generated text, so the encoding is modelled as a plain tagging of its
two inputs; no claim depends on its exact output. -/
def encodeIssueReporterArgs (extensionId : String) (issueBody : String) : String :=
  "extensionId=" ++ extensionId ++ "&issueBody=" ++ issueBody

/-- The `issueBody` template built for one renderer entry (lines 316-320). -/
def issueBodyText (displayName : String) (executionDuration renderMs : Nat) : String :=
  "Auto-generated text from notebook cell performance - Please add an explanation for the performance issue, including cell content if possible.\n" ++
  "The duration for the renderer, " ++ displayName ++ ", is slower than expected.\n" ++
  "Execution Time: " ++ formatCellDuration executionDuration true ++ "\n" ++
  "Renderer Duration: " ++ formatCellDuration renderMs true ++ "\n"

/-- One iteration of the `for (const key in renderDuration)` loop of `_getTimeItem`
(lines 311-327): the markdown line appended for one renderer entry.  A link to the
issue reporter is used when the renderer was slow compared to the execution duration,
or exceptionally slow on its own; otherwise the title is plain bold text. -/
def TimerCellStatusBarItem.rendererEntry
    (getRendererInfo : String → Option RendererInfo)
    (executionDuration : Nat) (entry : String × Nat) : String :=
  let key := entry.1
  let ms := entry.2
  let rendererInfo := getRendererInfo key
  let displayName := match rendererInfo with
    | some i => i.displayName
    | none => key
  let extensionIdValue := match rendererInfo with
    | some i => i.extensionId
    | none => ""
  let args := encodeIssueReporterArgs extensionIdValue
    (issueBodyText displayName executionDuration ms)
  let renderIssueLink := (ms > 200 ∧ executionDuration < 2000) ∨ ms > 1000
  let linkText := displayName
  let rendererTitle := if renderIssueLink then
      "[" ++ linkText ++ "](command:workbench.action.openIssueReporter?" ++ args ++ ")"
    else
      "**" ++ linkText ++ "**"
  "- " ++ rendererTitle ++ " " ++ formatCellDuration ms true ++ "\n"

/-- The full `renderTimes` accumulator of `_getTimeItem` (lines 310-330), footnote
included. -/
def TimerCellStatusBarItem.renderTimesText
    (getRendererInfo : String → Option RendererInfo)
    (executionDuration : Nat) (renderDuration : List (String × Nat)) : String :=
  (renderDuration.foldl
    (fun acc entry => acc ++ TimerCellStatusBarItem.rendererEntry getRendererInfo
      executionDuration entry) "") ++
  "\n*" ++ "Use the links above to file an issue using the issue reporter." ++ "*\n"

/-- `TimerCellStatusBarItem._getTimeItem` (lines 300-349).  `toLocaleTimeString`
abstracts `new Date(endTime).toLocaleTimeString(language)` (locale formatting is an
out-of-scope external collaborator); `localize` calls are modelled by their default
(English) strings. -/
def TimerCellStatusBarItem.getTimeItem
    (startTime endTime adjustment : Nat)
    (runtimeInformation : Option RuntimeInformation)
    (isVerbose : Bool)
    (getRendererInfo : String → Option RendererInfo)
    (toLocaleTimeString : Nat → String) : INotebookCellStatusBarItem :=
  let duration := endTime - startTime + adjustment
  let lastExecution := toLocaleTimeString endTime
  let tooltip : Option CellStatusBarTooltip :=
    match runtimeInformation with
    | none => none
    | some ri =>
      let renderTimes := TimerCellStatusBarItem.renderTimesText getRendererInfo
        ri.executionDuration ri.renderDuration
      some (.markdown
        ("**Last Execution** " ++ lastExecution ++
         "\n\n**Execution Time** " ++ formatCellDuration ri.executionDuration true ++
         "\n\n**Overhead Time** " ++
           formatCellDuration (ri.timerDuration - ri.executionDuration) true ++
         "\n\n**Render Times**\n\n" ++ renderTimes) true)
  let executionText :=
    if isVerbose then
      "Last Execution: " ++ lastExecution ++ ", Duration: " ++
        formatCellDuration duration false
    else
      formatCellDuration duration false
  { text := executionText,
    color := none,
    tooltip := tooltip,
    alignment := CellStatusbarAlignment.Left,
    priority := maxSafeInteger - 5 }

/-- The mutable per-session state of `TimerCellStatusBarItem` relevant to the update
logic: whether `_deferredUpdate` currently holds a pending deferred clear. -/
structure TimerIndicatorState where
  deferredUpdatePending : Bool
deriving DecidableEq, Repr

/-- Result of one run of `TimerCellStatusBarItem._update`: the computed timer item, the
item list pushed synchronously (`none` when nothing was pushed in this run), the delay
of a deferred clear newly scheduled in this run, whether a previously pending deferred
clear was cancelled, the session state after the run, and whether the 100ms
self-reschedule was requested. -/
structure TimerUpdateResult where
  timerItem : Option INotebookCellStatusBarItem
  pushedItems : Option (List INotebookCellStatusBarItem)
  deferredScheduledDelay : Option Nat
  deferredCanceled : Bool
  state : TimerIndicatorState
  rescheduled : Bool
deriving DecidableEq, Repr

/-- The first half of `TimerCellStatusBarItem._update` (lines 256-282): the computed
`timerItem` together with whether `this._scheduler.schedule()` was called (the 100ms
self-reschedule, requested only in the Executing-with-start-time branch). -/
def TimerCellStatusBarItem.computeTimerItem (now : Nat)
    (runState : Option INotebookCellExecution)
    (internalMetadata : NotebookCellInternalMetadata)
    (isVerbose : Bool)
    (getRendererInfo : String → Option RendererInfo)
    (toLocaleTimeString : Nat → String) :
    Option INotebookCellStatusBarItem × Bool :=
  let state := runState.map (·.state)
  let startTime := internalMetadata.runStartTime
  let adjustment := internalMetadata.runStartTimeAdjustment.getD 0
  let endTime := internalMetadata.runEndTime
  let didPause := match runState with
    | some r => r.didPause
    | none => false
  if didPause then
    (none, false)
  else if state = some NotebookCellExecutionState.Executing then
    match startTime with
    | some s =>
      (some (TimerCellStatusBarItem.getTimeItem s now adjustment none isVerbose
        getRendererInfo toLocaleTimeString), true)
    | none => (none, false)
  else if state = none then
    match startTime, endTime with
    | some s, some e =>
      let timerDuration := now - s + adjustment
      let executionDuration := e - s
      let renderDuration := internalMetadata.renderDuration
      (some (TimerCellStatusBarItem.getTimeItem s e 0
        (some ⟨renderDuration, executionDuration, timerDuration⟩) isVerbose
        getRendererInfo toLocaleTimeString), false)
    | _, _ => (none, false)
  else
    (none, false)

/-- `TimerCellStatusBarItem._update` (lines 255-298), with the implicit inputs
(`Date.now()`, the execution-state lookup, cell metadata, verbosity flag, renderer
registry, locale formatting, session state) made explicit. -/
def TimerCellStatusBarItem.update (now : Nat)
    (runState : Option INotebookCellExecution)
    (internalMetadata : NotebookCellInternalMetadata)
    (isVerbose : Bool)
    (getRendererInfo : String → Option RendererInfo)
    (toLocaleTimeString : Nat → String)
    (st : TimerIndicatorState) : TimerUpdateResult :=
  let timerItemAndReschedule := TimerCellStatusBarItem.computeTimerItem now runState
    internalMetadata isVerbose getRendererInfo toLocaleTimeString
  let timerItem := timerItemAndReschedule.1
  let items := timerItem.toList
  if items = [] ∧ runState ≠ none then
    if st.deferredUpdatePending = false then
      { timerItem := timerItem,
        pushedItems := none,
        deferredScheduledDelay := some UPDATE_TIMER_GRACE_PERIOD,
        deferredCanceled := false,
        state := { deferredUpdatePending := true },
        rescheduled := timerItemAndReschedule.2 }
    else
      { timerItem := timerItem,
        pushedItems := none,
        deferredScheduledDelay := none,
        deferredCanceled := false,
        state := st,
        rescheduled := timerItemAndReschedule.2 }
  else
    { timerItem := timerItem,
      pushedItems := some items,
      deferredScheduledDelay := none,
      deferredCanceled := st.deferredUpdatePending,
      state := { deferredUpdatePending := false },
      rescheduled := timerItemAndReschedule.2 }

/-- The deferred-clear callback scheduled by `_update` (lines 288-291): it clears the
`_deferredUpdate` slot and pushes the (empty) item list captured by the scheduling run.
The pushed list is always empty because the deferral only happens in the
empty-items branch. -/
def TimerCellStatusBarItem.deferredUpdateCallback
    (_st : TimerIndicatorState) : TimerIndicatorState × List INotebookCellStatusBarItem :=
  ({ deferredUpdatePending := false }, [])

/-- `ExecutionStateCellStatusBarItem.dispose` (lines 202-207): `super.dispose()` first
disposes the registered `_clearExecutingStateTimer` (cancelling any pending clear
timer), then the attached items are replaced by the empty list. -/
def ExecutionStateCellStatusBarItem.dispose (st : ExecIndicatorState) (handle : Nat)
    (store : Nat → List INotebookCellStatusBarItem) :
    ExecIndicatorState × (Nat → List INotebookCellStatusBarItem) :=
  ({ showedExecutingStateTime := st.showedExecutingStateTime, clearTimerPending := false },
   deltaCellStatusBarItems store handle [])

/-- `TimerCellStatusBarItem.dispose` (lines 351-357): `super.dispose()` cancels the
registered 100ms scheduler, `_deferredUpdate?.dispose()` cancels any pending deferred
clear, and the attached items are replaced by the empty list. -/
def TimerCellStatusBarItem.dispose (_st : TimerIndicatorState) (handle : Nat)
    (store : Nat → List INotebookCellStatusBarItem) :
    TimerIndicatorState × (Nat → List INotebookCellStatusBarItem) :=
  ({ deferredUpdatePending := false }, deltaCellStatusBarItems store handle [])

/-- The `timerItem` field of an `_update` run is the computed timer item, and the
`rescheduled` field is the reschedule decision, whichever push branch is taken. -/
theorem TimerCellStatusBarItem.update_projections (now : Nat)
    (runState : Option INotebookCellExecution)
    (internalMetadata : NotebookCellInternalMetadata)
    (isVerbose : Bool)
    (getRendererInfo : String → Option RendererInfo)
    (toLocaleTimeString : Nat → String)
    (st : TimerIndicatorState) :
    (TimerCellStatusBarItem.update now runState internalMetadata isVerbose
        getRendererInfo toLocaleTimeString st).timerItem =
      (TimerCellStatusBarItem.computeTimerItem now runState internalMetadata isVerbose
        getRendererInfo toLocaleTimeString).1 ∧
    (TimerCellStatusBarItem.update now runState internalMetadata isVerbose
        getRendererInfo toLocaleTimeString st).rescheduled =
      (TimerCellStatusBarItem.computeTimerItem now runState internalMetadata isVerbose
        getRendererInfo toLocaleTimeString).2 := by
  unfold TimerCellStatusBarItem.update
  dsimp only
  refine ⟨?_, ?_⟩ <;> (split_ifs <;> rfl)

/-- C5: the timer indicator's recompute produces no timer item when `didPause` is true;
when the state is Executing and a numeric start timestamp exists, a duration item for
elapsed = now - start + adjustment together with a 100ms self-reschedule; when no run
state exists and both start and end timestamps are numbers, a terminal duration item
carrying the richer runtime-information tooltip and no reschedule; and in every other
case (Executing without a start timestamp, Pending or Unconfirmed state, or no state
with a missing timestamp) no timer item and no reschedule. -/
theorem timerUpdate_itemCases_spec (now : Nat)
    (runState : Option INotebookCellExecution)
    (meta : NotebookCellInternalMetadata) (isVerbose : Bool)
    (getRendererInfo : String → Option RendererInfo)
    (toLocaleTimeString : Nat → String) (st : TimerIndicatorState) :
    (∀ r : INotebookCellExecution, runState = some r → r.didPause = true →
      (TimerCellStatusBarItem.update now runState meta isVerbose getRendererInfo
        toLocaleTimeString st).timerItem = none ∧
      (TimerCellStatusBarItem.update now runState meta isVerbose getRendererInfo
        toLocaleTimeString st).rescheduled = false) ∧
    (∀ (r : INotebookCellExecution) (s : Nat), runState = some r → r.didPause = false →
      r.state = NotebookCellExecutionState.Executing → meta.runStartTime = some s →
      (TimerCellStatusBarItem.update now runState meta isVerbose getRendererInfo
        toLocaleTimeString st).timerItem =
        some (TimerCellStatusBarItem.getTimeItem s now
          (meta.runStartTimeAdjustment.getD 0) none isVerbose getRendererInfo
          toLocaleTimeString) ∧
      (TimerCellStatusBarItem.update now runState meta isVerbose getRendererInfo
        toLocaleTimeString st).rescheduled = true) ∧
    (∀ r : INotebookCellExecution, runState = some r → r.didPause = false →
      r.state = NotebookCellExecutionState.Executing → meta.runStartTime = none →
      (TimerCellStatusBarItem.update now runState meta isVerbose getRendererInfo
        toLocaleTimeString st).timerItem = none ∧
      (TimerCellStatusBarItem.update now runState meta isVerbose getRendererInfo
        toLocaleTimeString st).rescheduled = false) ∧
    (∀ s e : Nat, runState = none → meta.runStartTime = some s →
      meta.runEndTime = some e →
      (TimerCellStatusBarItem.update now runState meta isVerbose getRendererInfo
        toLocaleTimeString st).timerItem =
        some (TimerCellStatusBarItem.getTimeItem s e 0
          (some ⟨meta.renderDuration, e - s, now - s + meta.runStartTimeAdjustment.getD 0⟩)
          isVerbose getRendererInfo toLocaleTimeString) ∧
      (TimerCellStatusBarItem.update now runState meta isVerbose getRendererInfo
        toLocaleTimeString st).rescheduled = false) ∧
    (runState = none → (meta.runStartTime = none ∨ meta.runEndTime = none) →
      (TimerCellStatusBarItem.update now runState meta isVerbose getRendererInfo
        toLocaleTimeString st).timerItem = none ∧
      (TimerCellStatusBarItem.update now runState meta isVerbose getRendererInfo
        toLocaleTimeString st).rescheduled = false) ∧
    (∀ r : INotebookCellExecution, runState = some r → r.didPause = false →
      (r.state = NotebookCellExecutionState.Pending ∨
        r.state = NotebookCellExecutionState.Unconfirmed) →
      (TimerCellStatusBarItem.update now runState meta isVerbose getRendererInfo
        toLocaleTimeString st).timerItem = none ∧
      (TimerCellStatusBarItem.update now runState meta isVerbose getRendererInfo
        toLocaleTimeString st).rescheduled = false) := by
  obtain ⟨hti, hre⟩ := TimerCellStatusBarItem.update_projections now runState meta
    isVerbose getRendererInfo toLocaleTimeString st
  rw [hti, hre]
  refine ⟨?_, ?_, ?_, ?_, ?_, ?_⟩
  · intro r hrs hdp
    subst hrs
    simp [TimerCellStatusBarItem.computeTimerItem, hdp]
  · intro r s hrs hdp hstate hstart
    subst hrs
    simp [TimerCellStatusBarItem.computeTimerItem, hdp, hstate, hstart]
  · intro r hrs hdp hstate hstart
    subst hrs
    simp [TimerCellStatusBarItem.computeTimerItem, hdp, hstate, hstart]
  · intro s e hrs hstart hend
    subst hrs
    simp [TimerCellStatusBarItem.computeTimerItem, hstart, hend]
  · intro hrs hmiss
    subst hrs
    rcases hmiss with h | h <;>
      simp [TimerCellStatusBarItem.computeTimerItem, h]
  · intro r hrs hdp hstate
    subst hrs
    rcases hstate with h | h <;>
      simp [TimerCellStatusBarItem.computeTimerItem, hdp, h]

/-- Witness for C5: a cell executing since t=200 with adjustment 50, observed at
t=1000, yields the live duration item and a 100ms reschedule. -/
theorem timerUpdate_itemCases_spec_witness :
    (TimerCellStatusBarItem.update 1000 (some ⟨NotebookCellExecutionState.Executing, false⟩)
        ⟨none, some 200, some 50, none, []⟩ false (fun _ => none) (fun _ => "")
        ⟨false⟩).timerItem =
      some (TimerCellStatusBarItem.getTimeItem 200 1000
        ((⟨none, some 200, some 50, none, []⟩ :
          NotebookCellInternalMetadata).runStartTimeAdjustment.getD 0) none false
        (fun _ => none) (fun _ => "")) ∧
    (TimerCellStatusBarItem.update 1000 (some ⟨NotebookCellExecutionState.Executing, false⟩)
        ⟨none, some 200, some 50, none, []⟩ false (fun _ => none) (fun _ => "")
        ⟨false⟩).rescheduled = true :=
  (timerUpdate_itemCases_spec 1000 (some ⟨NotebookCellExecutionState.Executing, false⟩)
    ⟨none, some 200, some 50, none, []⟩ false (fun _ => none) (fun _ => "")
    ⟨false⟩).2.1 ⟨NotebookCellExecutionState.Executing, false⟩ 200 rfl rfl rfl rfl

/-- C2: when the computed item list is empty but a run-state object still exists, the
update pushes nothing; a deferred clear is scheduled for `UPDATE_TIMER_GRACE_PERIOD`
(200ms) unless one is already pending, and only the deferred callback pushes the empty
list; in every other case (an item is present, or the run state is absent) any pending
deferred clear is cancelled and the update is pushed immediately.  Concrete run: the
run-state-present-but-empty condition at t=0 schedules a deferred clear for t=200 and
pushes nothing, and a non-empty recompute at t=150 cancels it and pushes the item, so
the empty list is never pushed. -/
theorem timerGracePeriod_spec (now : Nat)
    (runState : Option INotebookCellExecution)
    (meta : NotebookCellInternalMetadata) (isVerbose : Bool)
    (getRendererInfo : String → Option RendererInfo)
    (toLocaleTimeString : Nat → String) (st : TimerIndicatorState) :
    ((TimerCellStatusBarItem.update now runState meta isVerbose getRendererInfo
        toLocaleTimeString st).timerItem = none → runState ≠ none →
      (TimerCellStatusBarItem.update now runState meta isVerbose getRendererInfo
        toLocaleTimeString st).pushedItems = none ∧
      (st.deferredUpdatePending = false →
        (TimerCellStatusBarItem.update now runState meta isVerbose getRendererInfo
          toLocaleTimeString st).deferredScheduledDelay = some UPDATE_TIMER_GRACE_PERIOD ∧
        (TimerCellStatusBarItem.update now runState meta isVerbose getRendererInfo
          toLocaleTimeString st).state.deferredUpdatePending = true) ∧
      (st.deferredUpdatePending = true →
        (TimerCellStatusBarItem.update now runState meta isVerbose getRendererInfo
          toLocaleTimeString st).deferredScheduledDelay = none ∧
        (TimerCellStatusBarItem.update now runState meta isVerbose getRendererInfo
          toLocaleTimeString st).state = st)) ∧
    (((TimerCellStatusBarItem.update now runState meta isVerbose getRendererInfo
        toLocaleTimeString st).timerItem ≠ none ∨ runState = none) →
      (TimerCellStatusBarItem.update now runState meta isVerbose getRendererInfo
        toLocaleTimeString st).pushedItems =
        some ((TimerCellStatusBarItem.update now runState meta isVerbose getRendererInfo
          toLocaleTimeString st).timerItem.toList) ∧
      (TimerCellStatusBarItem.update now runState meta isVerbose getRendererInfo
        toLocaleTimeString st).deferredCanceled = st.deferredUpdatePending ∧
      (TimerCellStatusBarItem.update now runState meta isVerbose getRendererInfo
        toLocaleTimeString st).deferredScheduledDelay = none ∧
      (TimerCellStatusBarItem.update now runState meta isVerbose getRendererInfo
        toLocaleTimeString st).state.deferredUpdatePending = false) ∧
    UPDATE_TIMER_GRACE_PERIOD = 200 ∧
    (∀ s : TimerIndicatorState,
      TimerCellStatusBarItem.deferredUpdateCallback s = (⟨false⟩, [])) ∧
    ((TimerCellStatusBarItem.update 0 (some ⟨NotebookCellExecutionState.Pending, false⟩)
        ⟨none, none, none, none, []⟩ false (fun _ => none) (fun _ => "")
        ⟨false⟩).pushedItems = none ∧
      (TimerCellStatusBarItem.update 0 (some ⟨NotebookCellExecutionState.Pending, false⟩)
        ⟨none, none, none, none, []⟩ false (fun _ => none) (fun _ => "")
        ⟨false⟩).deferredScheduledDelay = some 200 ∧
      (TimerCellStatusBarItem.update 0 (some ⟨NotebookCellExecutionState.Pending, false⟩)
        ⟨none, none, none, none, []⟩ false (fun _ => none) (fun _ => "")
        ⟨false⟩).state = ⟨true⟩ ∧
      (TimerCellStatusBarItem.update 150 (some ⟨NotebookCellExecutionState.Executing, false⟩)
        ⟨none, some 40, none, none, []⟩ false (fun _ => none) (fun _ => "")
        ⟨true⟩).pushedItems =
        some [TimerCellStatusBarItem.getTimeItem 40 150 0 none false
          (fun _ => none) (fun _ => "")] ∧
      (TimerCellStatusBarItem.update 150 (some ⟨NotebookCellExecutionState.Executing, false⟩)
        ⟨none, some 40, none, none, []⟩ false (fun _ => none) (fun _ => "")
        ⟨true⟩).deferredCanceled = true ∧
      (TimerCellStatusBarItem.update 150 (some ⟨NotebookCellExecutionState.Executing, false⟩)
        ⟨none, some 40, none, none, []⟩ false (fun _ => none) (fun _ => "")
        ⟨true⟩).state = ⟨false⟩) := by
  obtain ⟨hproj, -⟩ := TimerCellStatusBarItem.update_projections now runState meta
    isVerbose getRendererInfo toLocaleTimeString st
  refine ⟨?_, ?_, rfl, fun s => rfl, by decide, by decide, by decide, by decide,
    by decide, by decide⟩
  · intro hti hrs
    have hc : (TimerCellStatusBarItem.computeTimerItem now runState meta isVerbose
        getRendererInfo toLocaleTimeString).1 = none := hproj.symm.trans hti
    have hcond : (TimerCellStatusBarItem.computeTimerItem now runState meta isVerbose
        getRendererInfo toLocaleTimeString).1.toList = [] ∧ ¬ runState = none :=
      ⟨by rw [hc]; rfl, hrs⟩
    unfold TimerCellStatusBarItem.update
    dsimp only
    rw [if_pos hcond]
    rcases st with ⟨pending⟩
    cases pending <;> simp
  · intro hor
    have hcond : ¬((TimerCellStatusBarItem.computeTimerItem now runState meta isVerbose
        getRendererInfo toLocaleTimeString).1.toList = [] ∧ ¬ runState = none) := by
      rcases hor with h | h
      · rw [hproj] at h
        rintro ⟨hl, -⟩
        rcases hopt : (TimerCellStatusBarItem.computeTimerItem now runState meta isVerbose
            getRendererInfo toLocaleTimeString).1 with _ | a
        · exact h hopt
        · rw [hopt] at hl
          exact List.noConfusion hl
      · rintro ⟨-, hne⟩
        exact hne h
    rw [hproj]
    unfold TimerCellStatusBarItem.update
    dsimp only
    rw [if_neg hcond]
    exact ⟨rfl, rfl, rfl, rfl⟩

/-- Witness for C2: a non-empty recompute (Executing since t=40, observed at t=150)
with a deferred clear pending cancels the deferral and pushes immediately. -/
theorem timerGracePeriod_spec_witness :
    (TimerCellStatusBarItem.update 150 (some ⟨NotebookCellExecutionState.Executing, false⟩)
      ⟨none, some 40, none, none, []⟩ false (fun _ => none) (fun _ => "")
      ⟨true⟩).pushedItems =
      some ((TimerCellStatusBarItem.update 150
        (some ⟨NotebookCellExecutionState.Executing, false⟩)
        ⟨none, some 40, none, none, []⟩ false (fun _ => none) (fun _ => "")
        ⟨true⟩).timerItem.toList) ∧
    (TimerCellStatusBarItem.update 150 (some ⟨NotebookCellExecutionState.Executing, false⟩)
      ⟨none, some 40, none, none, []⟩ false (fun _ => none) (fun _ => "")
      ⟨true⟩).deferredCanceled =
      (⟨true⟩ : TimerIndicatorState).deferredUpdatePending ∧
    (TimerCellStatusBarItem.update 150 (some ⟨NotebookCellExecutionState.Executing, false⟩)
      ⟨none, some 40, none, none, []⟩ false (fun _ => none) (fun _ => "")
      ⟨true⟩).deferredScheduledDelay = none ∧
    (TimerCellStatusBarItem.update 150 (some ⟨NotebookCellExecutionState.Executing, false⟩)
      ⟨none, some 40, none, none, []⟩ false (fun _ => none) (fun _ => "")
      ⟨true⟩).state.deferredUpdatePending = false :=
  (timerGracePeriod_spec 150 (some ⟨NotebookCellExecutionState.Executing, false⟩)
    ⟨none, some 40, none, none, []⟩ false (fun _ => none) (fun _ => "")
    ⟨true⟩).2.1 (Or.inl (by decide))

/-- C10: in the timer indicator's terminal (finished) case the duration item is built
with the adjustment argument defaulted to 0, so its displayed duration text equals
`format (runEndTime - runStartTime)` with `runStartTimeAdjustment` not applied (in the
verbose variant the same unadjusted figure appears after the prefix), while the
adjustment enters only the runtime information's `timerDuration = now - start +
adjustment`, whose sole use is the tooltip's overhead figure
`format (timerDuration - executionDuration)`; in the executing case the displayed
elapsed text does add the adjustment: `format (now - start + adjustment)`. -/
theorem timerAdjustment_spec :
    (∀ (now : Nat) (meta : NotebookCellInternalMetadata) (isVerbose : Bool)
        (getRendererInfo : String → Option RendererInfo)
        (toLocaleTimeString : Nat → String) (st : TimerIndicatorState) (s e : Nat),
      meta.runStartTime = some s → meta.runEndTime = some e →
      (TimerCellStatusBarItem.update now none meta isVerbose getRendererInfo
        toLocaleTimeString st).timerItem =
        some (TimerCellStatusBarItem.getTimeItem s e 0
          (some ⟨meta.renderDuration, e - s, now - s + meta.runStartTimeAdjustment.getD 0⟩)
          isVerbose getRendererInfo toLocaleTimeString)) ∧
    (∀ (s e : Nat) (ri : Option RuntimeInformation)
        (getRendererInfo : String → Option RendererInfo)
        (toLocaleTimeString : Nat → String),
      (TimerCellStatusBarItem.getTimeItem s e 0 ri false getRendererInfo
        toLocaleTimeString).text = formatCellDuration (e - s) false) ∧
    (∀ (s e : Nat) (ri : Option RuntimeInformation)
        (getRendererInfo : String → Option RendererInfo)
        (toLocaleTimeString : Nat → String),
      (TimerCellStatusBarItem.getTimeItem s e 0 ri true getRendererInfo
        toLocaleTimeString).text =
        "Last Execution: " ++ toLocaleTimeString e ++ ", Duration: " ++
          formatCellDuration (e - s) false) ∧
    (∀ (s now adj : Nat) (getRendererInfo : String → Option RendererInfo)
        (toLocaleTimeString : Nat → String),
      (TimerCellStatusBarItem.getTimeItem s now adj none false getRendererInfo
        toLocaleTimeString).text = formatCellDuration (now - s + adj) false) ∧
    (∀ (s e adj : Nat) (ri : RuntimeInformation) (isVerbose : Bool)
        (getRendererInfo : String → Option RendererInfo)
        (toLocaleTimeString : Nat → String),
      (TimerCellStatusBarItem.getTimeItem s e adj (some ri) isVerbose getRendererInfo
        toLocaleTimeString).tooltip =
        some (.markdown
          ("**Last Execution** " ++ toLocaleTimeString e ++
           "\n\n**Execution Time** " ++ formatCellDuration ri.executionDuration true ++
           "\n\n**Overhead Time** " ++
             formatCellDuration (ri.timerDuration - ri.executionDuration) true ++
           "\n\n**Render Times**\n\n" ++
             TimerCellStatusBarItem.renderTimesText getRendererInfo
               ri.executionDuration ri.renderDuration) true)) := by
  refine ⟨?_, ?_, ?_, ?_, ?_⟩
  · intro now meta isVerbose getRendererInfo toLocaleTimeString st s e hstart hend
    obtain ⟨hproj, -⟩ := TimerCellStatusBarItem.update_projections now none meta
      isVerbose getRendererInfo toLocaleTimeString st
    rw [hproj]
    simp [TimerCellStatusBarItem.computeTimerItem, hstart, hend]
  · intro s e ri getRendererInfo toLocaleTimeString
    simp [TimerCellStatusBarItem.getTimeItem]
  · intro s e ri getRendererInfo toLocaleTimeString
    simp [TimerCellStatusBarItem.getTimeItem]
  · intro s now adj getRendererInfo toLocaleTimeString
    simp [TimerCellStatusBarItem.getTimeItem]
  · intro s e adj ri isVerbose getRendererInfo toLocaleTimeString
    simp [TimerCellStatusBarItem.getTimeItem]

/-- Witness for C10: concrete terminal update with start 100, end 400, adjustment 30,
observed at t=1000. -/
theorem timerAdjustment_spec_witness :
    (TimerCellStatusBarItem.update 1000 none ⟨some true, some 100, some 30, some 400, []⟩
      false (fun _ => none) (fun _ => "") ⟨false⟩).timerItem =
      some (TimerCellStatusBarItem.getTimeItem 100 400 0
        (some ⟨(⟨some true, some 100, some 30, some 400, []⟩ :
            NotebookCellInternalMetadata).renderDuration, 400 - 100,
          1000 - 100 + (⟨some true, some 100, some 30, some 400, []⟩ :
            NotebookCellInternalMetadata).runStartTimeAdjustment.getD 0⟩)
        false (fun _ => none) (fun _ => "")) :=
  timerAdjustment_spec.1 1000 ⟨some true, some 100, some 30, some 400, []⟩ false
    (fun _ => none) (fun _ => "") ⟨false⟩ 100 400 rfl rfl


/-- A link-form renderer line starts with the bullet and the markdown link opener. -/
theorem rendererEntry_link_head (dn args fmt : String) :
    ("- [").data <+:
      ("- " ++ ("[" ++ dn ++ "](command:workbench.action.openIssueReporter?" ++ args ++
        ")") ++ " " ++ fmt ++ "\n").data :=
  Exists.intro
    ((((((dn.data ++ ("](command:workbench.action.openIssueReporter?").data) ++
      args.data) ++ [')']) ++ [' ']) ++ fmt.data) ++ ['\n']) rfl

/-- A bold-form renderer line does not start with the markdown link opener. -/
theorem rendererEntry_bold_head (dn fmt : String) :
    ¬(("- [").data <+: ("- " ++ ("**" ++ dn ++ "**") ++ " " ++ fmt ++ "\n").data) := by
  rintro ⟨t, ht⟩
  have ht' : '-' :: ' ' :: '[' :: t =
      '-' :: ' ' :: '*' :: '*' ::
        ((((dn.data ++ ['*', '*']) ++ [' ']) ++ fmt.data) ++ ['\n']) := ht
  injection ht' with h1 h2
  injection h2 with h3 h4
  injection h4 with h5 h6
  exact absurd h5 (by decide)

/-- C8: a renderer entry of the terminal tooltip's per-renderer breakdown is rendered
as an issue-report deep link (the line starts with a markdown link opener after the
bullet) exactly when its render duration exceeds 200ms while the execution duration is
under 2000ms, or its render duration alone exceeds 1000ms; otherwise the entry is plain
emphasized (bold) text. -/
theorem rendererIssueLink_spec (getRendererInfo : String → Option RendererInfo)
    (executionDuration : Nat) (key : String) (ms : Nat) :
    (("- [").data <+:
        (TimerCellStatusBarItem.rendererEntry getRendererInfo executionDuration
          (key, ms)).data ↔
      ((ms > 200 ∧ executionDuration < 2000) ∨ ms > 1000)) ∧
    (((ms > 200 ∧ executionDuration < 2000) ∨ ms > 1000) →
      TimerCellStatusBarItem.rendererEntry getRendererInfo executionDuration (key, ms) =
        "- " ++ ("[" ++ (match getRendererInfo key with
            | some i => i.displayName
            | none => key) ++
          "](command:workbench.action.openIssueReporter?" ++
          encodeIssueReporterArgs
            (match getRendererInfo key with
              | some i => i.extensionId
              | none => "")
            (issueBodyText (match getRendererInfo key with
              | some i => i.displayName
              | none => key) executionDuration ms) ++ ")") ++ " " ++
          formatCellDuration ms true ++ "\n") ∧
    (¬((ms > 200 ∧ executionDuration < 2000) ∨ ms > 1000) →
      TimerCellStatusBarItem.rendererEntry getRendererInfo executionDuration (key, ms) =
        "- " ++ ("**" ++ (match getRendererInfo key with
            | some i => i.displayName
            | none => key) ++ "**") ++ " " ++
          formatCellDuration ms true ++ "\n") := by
  refine ⟨?_, ?_, ?_⟩
  · by_cases hc : (ms > 200 ∧ executionDuration < 2000) ∨ ms > 1000
    · refine iff_of_true ?_ hc
      unfold TimerCellStatusBarItem.rendererEntry
      dsimp only
      rw [if_pos hc]
      exact rendererEntry_link_head _ _ _
    · refine iff_of_false ?_ hc
      unfold TimerCellStatusBarItem.rendererEntry
      dsimp only
      rw [if_neg hc]
      exact rendererEntry_bold_head _ _
  · intro hc
    unfold TimerCellStatusBarItem.rendererEntry
    dsimp only
    rw [if_pos hc]
  · intro hc
    unfold TimerCellStatusBarItem.rendererEntry
    dsimp only
    rw [if_neg hc]

/-- Witness for C8: a renderer that took 1500ms is linked; the link condition holds via
the standalone 1000ms threshold. -/
theorem rendererIssueLink_spec_witness :
    ("- [").data <+:
      (TimerCellStatusBarItem.rendererEntry (fun _ => none) 5000 ("r", 1500)).data :=
  (rendererIssueLink_spec (fun _ => none) 5000 "r" 1500).1.mpr (by decide)

/-- The computed timer item is `none` or an item built by `getTimeItem` with the same
verbosity and external helpers. -/
theorem TimerCellStatusBarItem.computeTimerItem_shape (now : Nat)
    (runState : Option INotebookCellExecution)
    (meta : NotebookCellInternalMetadata) (isVerbose : Bool)
    (getRendererInfo : String → Option RendererInfo)
    (toLocaleTimeString : Nat → String) :
    (TimerCellStatusBarItem.computeTimerItem now runState meta isVerbose getRendererInfo
      toLocaleTimeString).1 = none ∨
    ∃ (s e adj : Nat) (ri : Option RuntimeInformation),
      (TimerCellStatusBarItem.computeTimerItem now runState meta isVerbose getRendererInfo
        toLocaleTimeString).1 =
        some (TimerCellStatusBarItem.getTimeItem s e adj ri isVerbose getRendererInfo
          toLocaleTimeString) := by
  unfold TimerCellStatusBarItem.computeTimerItem
  dsimp only
  split_ifs
  · exact Or.inl rfl
  · rcases meta.runStartTime with _ | s
    · exact Or.inl rfl
    · exact Or.inr ⟨s, now, _, none, rfl⟩
  · rcases meta.runStartTime with _ | s
    · rcases meta.runEndTime with _ | e
      · exact Or.inl rfl
      · exact Or.inl rfl
    · rcases meta.runEndTime with _ | e
      · exact Or.inl rfl
      · exact Or.inr ⟨s, e, 0, _, rfl⟩
  · exact Or.inl rfl

/-- C9: every status item built by the timer indicator has priority exactly
`Number.MAX_SAFE_INTEGER - 5`, strictly less than the priority
`Number.MAX_SAFE_INTEGER` of every item produced by the execution-state indicator, so
the execution-state icon always sorts ahead of the timer item of the same cell. -/
theorem itemPriorities_spec :
    (∀ (startTime endTime adjustment : Nat) (ri : Option RuntimeInformation)
        (isVerbose : Bool) (getRendererInfo : String → Option RendererInfo)
        (toLocaleTimeString : Nat → String),
      (TimerCellStatusBarItem.getTimeItem startTime endTime adjustment ri isVerbose
        getRendererInfo toLocaleTimeString).priority = maxSafeInteger - 5) ∧
    (∀ (now : Nat) (runState : Option INotebookCellExecution)
        (meta : NotebookCellInternalMetadata) (isVerbose : Bool)
        (getRendererInfo : String → Option RendererInfo)
        (toLocaleTimeString : Nat → String) (st : TimerIndicatorState)
        (item : INotebookCellStatusBarItem),
      (TimerCellStatusBarItem.update now runState meta isVerbose getRendererInfo
        toLocaleTimeString st).timerItem = some item →
      item.priority = maxSafeInteger - 5) ∧
    (∀ (runState : Option INotebookCellExecution)
        (meta : NotebookCellInternalMetadata) (item : INotebookCellStatusBarItem),
      item ∈ ExecutionStateCellStatusBarItem.getItemForState runState meta →
      item.priority = maxSafeInteger) ∧
    maxSafeInteger - 5 < maxSafeInteger := by
  refine ⟨fun _ _ _ _ _ _ _ => rfl, ?_, ?_, by decide⟩
  · intro now runState meta isVerbose getRendererInfo toLocaleTimeString st item hsome
    obtain ⟨hproj, -⟩ := TimerCellStatusBarItem.update_projections now runState meta
      isVerbose getRendererInfo toLocaleTimeString st
    rw [hproj] at hsome
    rcases TimerCellStatusBarItem.computeTimerItem_shape now runState meta isVerbose
        getRendererInfo toLocaleTimeString with h | ⟨s, e, adj, ri, h⟩
    · rw [h] at hsome
      exact Option.noConfusion hsome
    · rw [h] at hsome
      rw [← Option.some.inj hsome]
      rfl
  · intro runState meta item hmem
    simp only [ExecutionStateCellStatusBarItem.getItemForState] at hmem
    split_ifs at hmem <;> simp_all

/-- Witness for C9: the error-icon item of a failed idle cell has the execution-state
priority. -/
theorem itemPriorities_spec_witness :
    ({ text := "$(" ++ errorStateIcon.id ++ ")",
       color := some "cellStatusIconError",
       tooltip := some (.str "Failed"),
       alignment := CellStatusbarAlignment.Left,
       priority := maxSafeInteger } : INotebookCellStatusBarItem).priority =
      maxSafeInteger :=
  itemPriorities_spec.2.2.1 none ⟨some false, none, none, none, []⟩ _ (by decide)

/-- C7: disposing either indicator session performs a final push replacing the cell's
attached items by the empty list (other cells' attachments are untouched), and the
session's pending timer slot (minimum-display clear timer, resp. deferred grace-period
clear and 100ms scheduler) is cancelled by disposal, whatever state the session was
in. -/
theorem disposeClears_spec :
    (∀ (st : ExecIndicatorState) (handle : Nat)
        (store : Nat → List INotebookCellStatusBarItem),
      (ExecutionStateCellStatusBarItem.dispose st handle store).2 handle = [] ∧
      (ExecutionStateCellStatusBarItem.dispose st handle store).1.clearTimerPending =
        false ∧
      (∀ h : Nat, h ≠ handle →
        (ExecutionStateCellStatusBarItem.dispose st handle store).2 h = store h)) ∧
    (∀ (st : TimerIndicatorState) (handle : Nat)
        (store : Nat → List INotebookCellStatusBarItem),
      (TimerCellStatusBarItem.dispose st handle store).2 handle = [] ∧
      (TimerCellStatusBarItem.dispose st handle store).1.deferredUpdatePending = false ∧
      (∀ h : Nat, h ≠ handle →
        (TimerCellStatusBarItem.dispose st handle store).2 h = store h)) := by
  constructor
  · intro st handle store
    refine ⟨?_, rfl, ?_⟩
    · simp [ExecutionStateCellStatusBarItem.dispose, deltaCellStatusBarItems]
    · intro h hne
      simp [ExecutionStateCellStatusBarItem.dispose, deltaCellStatusBarItems, hne]
  · intro st handle store
    refine ⟨?_, rfl, ?_⟩
    · simp [TimerCellStatusBarItem.dispose, deltaCellStatusBarItems]
    · intro h hne
      simp [TimerCellStatusBarItem.dispose, deltaCellStatusBarItems, hne]

/-- Witness for C7: disposing mid-timer (both pending flags set) at handle 3 clears
that cell's items and leaves cell 4 untouched. -/
theorem disposeClears_spec_witness :
    (ExecutionStateCellStatusBarItem.dispose ⟨some 100, true⟩ 3
      (fun _ => [])).2 4 = (fun _ => ([] : List INotebookCellStatusBarItem)) 4 :=
  ((disposeClears_spec.1 ⟨some 100, true⟩ 3 (fun _ => [])).2.2 4 (by decide))

/-- `ICellVisibilityChangeEvent`: a visibility delta; cells are identified by their
`handle` (a number). -/
structure ICellVisibilityChangeEvent where
  added : List Nat
  removed : List Nat
deriving DecidableEq, Repr

/-- The state of `NotebookStatusBarController`: the `_visibleCells` map (cell handle to
the session created by `_itemFactory`, modelled by a session id) together with a
counter supplying the id of the next session the factory constructs.  One controller
exists per indicator type, so the single map entry per handle is the one session of
that type for that cell. -/
structure NotebookStatusBarControllerState where
  visibleCells : Nat → Option Nat
  nextSessionId : Nat

/-- The removal loop of `_updateVisibleCells` (lines 67-70): each removed cell's map
entry is deleted. -/
def NotebookStatusBarController.removeCells (removed : List Nat)
    (m : Nat → Option Nat) : Nat → Option Nat :=
  removed.foldl (fun acc oldCell => fun k => if k = oldCell then none else acc k) m

/-- The addition loop of `_updateVisibleCells` (lines 72-74): each added cell gets a
newly constructed session (a fresh id from the counter). -/
def NotebookStatusBarController.addCells (added : List Nat)
    (m : Nat → Option Nat) (next : Nat) : (Nat → Option Nat) × Nat :=
  added.foldl
    (fun p newCell => (fun k => if k = newCell then some p.2 else p.1 k, p.2 + 1))
    (m, next)

/-- `NotebookStatusBarController._updateVisibleCells` (lines 61-75): dispose and drop
the removed cells' sessions, then construct a session for each added cell.  The second
component collects the session ids disposed by the removal loop. -/
def NotebookStatusBarController.updateVisibleCells
    (st : NotebookStatusBarControllerState) (e : ICellVisibilityChangeEvent) :
    NotebookStatusBarControllerState × List Nat :=
  let disposed := e.removed.filterMap st.visibleCells
  let afterRemove := NotebookStatusBarController.removeCells e.removed st.visibleCells
  let p := NotebookStatusBarController.addCells e.added afterRemove st.nextSessionId
  (⟨p.1, p.2⟩, disposed)

/-- The empty controller state (fresh controller, before any visibility delta). -/
def NotebookStatusBarController.initial : NotebookStatusBarControllerState :=
  ⟨fun _ => none, 0⟩

/-- Processing a sequence of visibility deltas. -/
def NotebookStatusBarController.runDeltas (st : NotebookStatusBarControllerState)
    (es : List ICellVisibilityChangeEvent) : NotebookStatusBarControllerState :=
  es.foldl (fun s e => (NotebookStatusBarController.updateVisibleCells s e).1) st

/-- The reference visible set: a cell is visible after a delta sequence when the last
delta mentioning it added it. -/
def NotebookStatusBarController.visibleAfter
    (es : List ICellVisibilityChangeEvent) (h : Nat) : Bool :=
  es.foldl
    (fun b e => if h ∈ e.added then true else if h ∈ e.removed then false else b) false

theorem NotebookStatusBarController.removeCells_cons (a : Nat) (l : List Nat)
    (m : Nat → Option Nat) :
    NotebookStatusBarController.removeCells (a :: l) m =
      NotebookStatusBarController.removeCells l (fun k => if k = a then none else m k) :=
  rfl

theorem NotebookStatusBarController.addCells_cons (a : Nat) (l : List Nat)
    (m : Nat → Option Nat) (next : Nat) :
    NotebookStatusBarController.addCells (a :: l) m next =
      NotebookStatusBarController.addCells l
        (fun k => if k = a then some next else m k) (next + 1) :=
  rfl

theorem NotebookStatusBarController.removeCells_apply (removed : List Nat)
    (m : Nat → Option Nat) (k : Nat) :
    NotebookStatusBarController.removeCells removed m k =
      if k ∈ removed then none else m k := by
  induction removed generalizing m with
  | nil => simp [NotebookStatusBarController.removeCells]
  | cons a l ih =>
    rw [NotebookStatusBarController.removeCells_cons, ih]
    by_cases h1 : k ∈ l <;> by_cases h2 : k = a <;> simp [h1, h2]

theorem NotebookStatusBarController.addCells_snd (added : List Nat)
    (m : Nat → Option Nat) (next : Nat) :
    (NotebookStatusBarController.addCells added m next).2 = next + added.length := by
  induction added generalizing m next with
  | nil => simp [NotebookStatusBarController.addCells]
  | cons a l ih =>
    rw [NotebookStatusBarController.addCells_cons, ih]
    simp
    omega

theorem NotebookStatusBarController.addCells_apply_not_mem (added : List Nat)
    (m : Nat → Option Nat) (next : Nat) (k : Nat) (hk : k ∉ added) :
    (NotebookStatusBarController.addCells added m next).1 k = m k := by
  induction added generalizing m next with
  | nil => rfl
  | cons a l ih =>
    have hka : k ≠ a := fun h => hk (h ▸ List.mem_cons_self a l)
    have hkl : k ∉ l := fun h => hk (List.mem_cons_of_mem a h)
    rw [NotebookStatusBarController.addCells_cons, ih _ _ hkl]
    simp [hka]

theorem NotebookStatusBarController.addCells_mem (added : List Nat)
    (m : Nat → Option Nat) (next : Nat) (k : Nat) (hk : k ∈ added) :
    ∃ sid, (NotebookStatusBarController.addCells added m next).1 k = some sid ∧
      next ≤ sid := by
  induction added generalizing m next with
  | nil => cases hk
  | cons a l ih =>
    rw [NotebookStatusBarController.addCells_cons]
    by_cases hkl : k ∈ l
    · obtain ⟨sid, h1, h2⟩ := ih _ (next + 1) hkl
      exact ⟨sid, h1, by omega⟩
    · have hka : k = a := by
        rcases List.mem_cons.mp hk with h | h
        · exact h
        · exact absurd h hkl
      rw [NotebookStatusBarController.addCells_apply_not_mem _ _ _ _ hkl]
      exact ⟨next, by simp [hka], Nat.le_refl next⟩

theorem NotebookStatusBarController.addCells_isSome (added : List Nat)
    (m : Nat → Option Nat) (next : Nat) (k : Nat) :
    ((NotebookStatusBarController.addCells added m next).1 k).isSome =
      (decide (k ∈ added) || (m k).isSome) := by
  induction added generalizing m next with
  | nil => simp [NotebookStatusBarController.addCells]
  | cons a l ih =>
    rw [NotebookStatusBarController.addCells_cons, ih]
    by_cases hka : k = a <;> by_cases hkl : k ∈ l <;> simp [hka, hkl]

theorem NotebookStatusBarController.addCells_bound (added : List Nat)
    (m : Nat → Option Nat) (next : Nat)
    (hm : ∀ j s, m j = some s → s < next) :
    ∀ j s, (NotebookStatusBarController.addCells added m next).1 j = some s →
      s < (NotebookStatusBarController.addCells added m next).2 := by
  induction added generalizing m next with
  | nil =>
    intro j s h
    exact hm j s h
  | cons a l ih =>
    rw [NotebookStatusBarController.addCells_cons]
    apply ih
    intro j s h
    by_cases hja : j = a
    · simp [hja] at h
      omega
    · simp [hja] at h
      exact Nat.lt_trans (hm j s h) (Nat.lt_succ_self next)

/-- One delta step: a handle has a session afterwards exactly when it was just added,
or it already had one and was not removed. -/
theorem NotebookStatusBarController.updateVisibleCells_isSome
    (st : NotebookStatusBarControllerState) (e : ICellVisibilityChangeEvent) (k : Nat) :
    (((NotebookStatusBarController.updateVisibleCells st e).1.visibleCells) k).isSome =
      (if k ∈ e.added then true
       else if k ∈ e.removed then false
       else (st.visibleCells k).isSome) := by
  unfold NotebookStatusBarController.updateVisibleCells
  dsimp only
  rw [NotebookStatusBarController.addCells_isSome]
  rw [NotebookStatusBarController.removeCells_apply]
  by_cases h1 : k ∈ e.added <;> by_cases h2 : k ∈ e.removed <;> simp [h1, h2]

/-- C6: for every sequence of visibility deltas processed from a fresh controller, a
cell handle has an active indicator session exactly when the delta sequence leaves it
visible (last delta mentioning it added it) — no leaked and no missing sessions; each
step disposes exactly the sessions of the removed cells that were in the map and drops
them, and gives every added cell a newly constructed session (its id is at least the
session counter, which bounds every previously existing session id, the bound being
preserved by every step).  The per-controller map holds at most one session per handle,
one controller existing per indicator type. -/
theorem visibilityLockstep_spec :
    (∀ (es : List ICellVisibilityChangeEvent) (h : Nat),
      (((NotebookStatusBarController.runDeltas NotebookStatusBarController.initial
        es).visibleCells) h).isSome = NotebookStatusBarController.visibleAfter es h) ∧
    (∀ (st : NotebookStatusBarControllerState) (e : ICellVisibilityChangeEvent),
      (NotebookStatusBarController.updateVisibleCells st e).2 =
        e.removed.filterMap st.visibleCells) ∧
    (∀ (st : NotebookStatusBarControllerState) (e : ICellVisibilityChangeEvent)
        (k : Nat), k ∈ e.added →
      ∃ sid, (NotebookStatusBarController.updateVisibleCells st e).1.visibleCells k =
          some sid ∧ st.nextSessionId ≤ sid) ∧
    (∀ (st : NotebookStatusBarControllerState) (e : ICellVisibilityChangeEvent),
      (∀ j s, st.visibleCells j = some s → s < st.nextSessionId) →
      ∀ j s, (NotebookStatusBarController.updateVisibleCells st e).1.visibleCells j =
          some s →
        s < (NotebookStatusBarController.updateVisibleCells st e).1.nextSessionId) := by
  refine ⟨?_, fun st e => rfl, ?_, ?_⟩
  · intro es h
    suffices key : ∀ (es : List ICellVisibilityChangeEvent)
        (st : NotebookStatusBarControllerState),
        ((NotebookStatusBarController.runDeltas st es).visibleCells h).isSome =
          es.foldl
            (fun b e => if h ∈ e.added then true else if h ∈ e.removed then false else b)
            ((st.visibleCells h).isSome) by
      exact key es NotebookStatusBarController.initial
    intro es
    induction es with
    | nil => intro st; rfl
    | cons e es ih =>
      intro st
      rw [show NotebookStatusBarController.runDeltas st (e :: es) =
        NotebookStatusBarController.runDeltas
          (NotebookStatusBarController.updateVisibleCells st e).1 es from rfl]
      rw [ih, List.foldl_cons]
      rw [NotebookStatusBarController.updateVisibleCells_isSome]
  · intro st e k hk
    unfold NotebookStatusBarController.updateVisibleCells
    dsimp only
    exact NotebookStatusBarController.addCells_mem e.added _ st.nextSessionId k hk
  · intro st e hm
    unfold NotebookStatusBarController.updateVisibleCells
    dsimp only
    apply NotebookStatusBarController.addCells_bound
    intro j s hj
    rw [NotebookStatusBarController.removeCells_apply] at hj
    by_cases hjr : j ∈ e.removed
    · rw [if_pos hjr] at hj
      exact Option.noConfusion hj
    · rw [if_neg hjr] at hj
      exact hm j s hj

/-- Witness for C6: adding cell 5 to a fresh controller constructs a session for it
with a fresh id. -/
theorem visibilityLockstep_spec_witness :
    ∃ sid, (NotebookStatusBarController.updateVisibleCells ⟨fun _ => none, 0⟩
        ⟨[5], []⟩).1.visibleCells 5 = some sid ∧
      (⟨fun _ => none, 0⟩ : NotebookStatusBarControllerState).nextSessionId ≤ sid :=
  visibilityLockstep_spec.2.2.1 ⟨fun _ => none, 0⟩ ⟨[5], []⟩ 5 (by decide)
